import Mathlib

/-!
Verification of the account-registration backend (boilerplate-node).

The development shallowly embeds the registration route of the Express
application: the declarative validation schema of `POST /accounts`, the
controller that performs the duplicate-email check and the two document
writes, the error-normalization middleware, and the mongoose connection
error listener.  Modules of the repository that are referenced but whose
source is not available (the helpers Error module, the InputValidator
interceptor, the accounts module with initPasswordHash, DbUtils) are
modelled from the specification; each such definition says so in its doc
comment.
-/

/-- Field-level validation entry, the express-validator shape
`\x7bparam, msg\x7d`.  Messages are represented by their locale keys. -/
structure FieldError where
  param : String
  msg : String
deriving DecidableEq, Repr

/-- Password credential stored on an account: the derived hash and the
per-account salt, mirroring the `\x7bhash, salt\x7d` pair the controller
receives from `initPasswordHash`. -/
structure PasswordCred where
  hash : String
  salt : String
deriving DecidableEq, Repr

/-- Modelled from the spec: the accounts-module helper `initPasswordHash`
(its source is not under src/).  The spec says it derives a salted hash
from the plaintext password, one way, with a salt generated per account
and never reused.  The per-account freshness is modelled by a nonce drawn
from the store; the one-way derivation is modelled symbolically, so that
the hash is a value distinct from the plaintext. -/
def initPasswordHash (nonce : Nat) (password : String) : PasswordCred :=
  { hash := "pbkdf2[" ++ toString nonce ++ "|" ++ password ++ "]",
    salt := toString nonce }

/-- Account document: identifier assigned at creation, email, and the
hash+salt credential — the fields the controller passes to
`db.accounts.create`. -/
structure Account where
  id : Nat
  email : String
  password : PasswordCred
deriving DecidableEq, Repr

/-- Nested name object of a profile document. -/
structure ProfileName where
  first_name : String
  last_name : String
deriving DecidableEq, Repr

/-- Nested contact object of a profile document. -/
structure Contact where
  phone : String
deriving DecidableEq, Repr

/-- Profile document as built by the controller for `db.profile.create`:
a reference to the account identifier, the name object and the contact
object. -/
structure Profile where
  account_id : Nat
  profile : ProfileName
  contact : Contact
deriving DecidableEq, Repr

/-- The persistent store: the accounts and profiles collections, plus the
counters modelling identifier assignment at creation and per-account salt
generation. -/
structure Store where
  accounts : List Account
  profiles : List Profile
  nextAccountId : Nat
  nextSalt : Nat
deriving DecidableEq, Repr

/-- Modelled from the spec: the error taxonomy of the helpers Error module
and of mongoose (neither is under src/).  `handled` errors are the ones
`Error.isHandled` recognizes, carrying an explicit HTTP status, a
machine-readable code, an optional explicit message (the empty string
models an absent message, which is falsy in the source language), a
locale tag for the default-message table, and an optional field-error
list.  `connection` errors are the storage-connectivity failures that
`DbUtils.checkConnectionErr` recognizes.  `other` covers everything
else. -/
inductive JsError where
  | handled (api_status : Nat) (api_code : String) (message : String)
      (locale_tag : String) (errors : Option (List FieldError))
  | connection (details : String)
  | other (details : String)
deriving DecidableEq, Repr

/-- Modelled from the spec: `Error.ValidationError` of the helpers module
(not under src/) builds a handled, validation-kind error that carries a
field-level error list; the spec maps validation failures to a 4xx
response with code and `errors` array. -/
def Error.ValidationError (errs : List FieldError) : JsError :=
  JsError.handled 400 "validation_error" "" "VALIDATION_ERROR" (some errs)

/-- Modelled from the spec: `Error.isHandled` of the helpers module (not
under src/) recognizes the handled, expected errors. -/
def Error.isHandled : JsError → Bool
  | JsError.handled _ _ _ _ _ => true
  | _ => false

/-- Modelled from the spec: `DbUtils.checkConnectionErr` of the mongoose
module (not under src/) recognizes storage-connectivity errors (database
down, buffering-disabled rejection). -/
def DbUtils.checkConnectionErr : JsError → Bool
  | JsError.connection _ => true
  | _ => false

/-- Model of the external validator-library `trim` sanitizer: strip
whitespace from both ends. -/
def trimStr (s : String) : String :=
  ⟨((s.data.dropWhile Char.isWhitespace).reverse.dropWhile
      Char.isWhitespace).reverse⟩

/-- Simplified model of the external validator-library `isInt` check used
by the schema on `contact_phone`: an optional sign followed by at least
one digit. -/
def isIntStr (s : String) : Bool :=
  let cs := s.data
  let t := match cs with
    | c :: rest => if c == '+' || c == '-' then rest else cs
    | [] => []
  !t.isEmpty && t.all Char.isDigit

/-- Simplified model of the external validator-library `isEmail` check
used by the schema on `email`: exactly one at-sign, neither at the start
nor at the end. -/
def isEmailStr (s : String) : Bool :=
  let cs := s.data
  cs.count '@' == 1 && cs.head? != some '@' && cs.getLast? != some '@'

/-- Request body of `POST /accounts` as the schema reads it.  A missing
field behaves, for every check of this schema, like the empty string, so
fields are plain strings. -/
structure RegPayload where
  first_name : String
  last_name : String
  contact_phone : String
  email : String
  password : String
  cnf_password : String
deriving DecidableEq, Repr

/-- The `trim: true` sanitizers of the schema mutate the request body, so
the controller sees the trimmed values. -/
def trimPayload (p : RegPayload) : RegPayload :=
  { first_name := trimStr p.first_name
    last_name := trimStr p.last_name
    contact_phone := trimStr p.contact_phone
    email := trimStr p.email
    password := trimStr p.password
    cnf_password := trimStr p.cnf_password }

/-- The `checkSchema` block of the accountsReg route: every check of
every field runs and contributes its error entry on failure, in schema
order.  `first_name` must be nonempty; `last_name` is optional with no
check; `contact_phone` must be nonempty and an integer; `email` must be
nonempty and an email; `password` must be nonempty; `cnf_password` must
be nonempty and must pass the custom check `password && password ===
value`, evaluated on the sanitized (trimmed) values. -/
def accountsRegSchema (p : RegPayload) : List FieldError :=
  let first_name := trimStr p.first_name
  let contact_phone := trimStr p.contact_phone
  let email := trimStr p.email
  let password := trimStr p.password
  let cnf_password := trimStr p.cnf_password
  (if first_name = "" then
    [⟨"first_name", "VAL_ERRORS.USR_ACC_NEW_MISSING_F_NAME"⟩] else []) ++
  (if contact_phone = "" then
    [⟨"contact_phone", "VAL_ERRORS.USR_ACC_NEW_MISSING_PHONE"⟩] else []) ++
  (if isIntStr contact_phone then [] else
    [⟨"contact_phone", "VAL_ERRORS.USR_ACC_NEW_INVALID_PHONE"⟩]) ++
  (if email = "" then
    [⟨"email", "VAL_ERRORS.USR_ACC_NEW_MISSING_EMAIL"⟩] else []) ++
  (if isEmailStr email then [] else
    [⟨"email", "VAL_ERRORS.USR_ACC_NEW_INVALID_EMAIL"⟩]) ++
  (if password = "" then
    [⟨"password", "VAL_ERRORS.USR_ACC_NEW_MISSING_PWD"⟩] else []) ++
  (if cnf_password = "" then
    [⟨"cnf_password", "VAL_ERRORS.USR_ACC_NEW_MISSING_CNF_PWD"⟩] else []) ++
  (if password != "" && password == cnf_password then [] else
    [⟨"cnf_password", "VAL_ERRORS.USR_ACC_NEW_CNF_PWD_MISMATCH"⟩])

/-- Modelled from the spec: the InputValidator interceptor (the
interceptors module is not under src/).  On any violation it stops the
pipeline with a validation error carrying the structured field list; on
no violation it lets the request continue. -/
def InputValidator (errs : List FieldError) : Option JsError :=
  if errs.isEmpty then none else some (Error.ValidationError errs)

/-- Fault injection for the two database writes of the controller: `none`
means the write resolves, `some e` means the write rejects with `e`
(for instance a connectivity error).  The plain run of the code is
`noFault`. -/
structure DbFault where
  accountCreate : Option JsError
  profileCreate : Option JsError
deriving DecidableEq, Repr

/-- Both writes resolve. -/
def noFault : DbFault := ⟨none, none⟩

/-- The accountsReg controller: look up an existing account by email;
when found, reject with a validation error on the `email` field and
write nothing; otherwise derive the password credential, create the
account, then create the profile referencing the account identifier, and
resolve with both records.  A rejection at either write propagates the
error unchanged (the catch block forwards `e` as is) and leaves the
writes already performed in place. -/
def accountsRegController (fault : DbFault) (st : Store) (params : RegPayload) :
    Except JsError (Account × Profile) × Store :=
  match st.accounts.find? (fun a => a.email == params.email) with
  | some _ =>
    (Except.error (Error.ValidationError
      [⟨"email", "VAL_ERRORS.USR_ACC_NEW_EMAIL_EXISTS"⟩]), st)
  | none =>
    match fault.accountCreate with
    | some e => (Except.error e, st)
    | none =>
      let cred := initPasswordHash st.nextSalt params.password
      let account : Account := ⟨st.nextAccountId, params.email, cred⟩
      let st1 : Store :=
        ⟨st.accounts ++ [account], st.profiles, st.nextAccountId + 1, st.nextSalt + 1⟩
      match fault.profileCreate with
      | some e => (Except.error e, st1)
      | none =>
        let profile : Profile :=
          ⟨account.id, ⟨params.first_name, params.last_name⟩, ⟨params.contact_phone⟩⟩
        let st2 : Store :=
          ⟨st1.accounts, st1.profiles ++ [profile], st1.nextAccountId, st1.nextSalt⟩
        (Except.ok (account, profile), st2)

/-- Outcome of one request through the accountsReg stack: the JSON
success payload with both created records, or the error handed to the
error-normalization middleware. -/
inductive RegOutcome where
  | success (account : Account) (profile : Profile)
  | failure (err : JsError)
deriving DecidableEq, Repr

/-- Result of the route pipeline, recording whether the controller (the
workflow) was invoked at all. -/
structure PipelineResult where
  outcome : RegOutcome
  controllerInvoked : Bool
deriving DecidableEq, Repr

/-- The exported accountsReg middleware stack: the validation schema,
the InputValidator interceptor, then the controller on the sanitized
body. -/
def accountsReg (fault : DbFault) (st : Store) (p : RegPayload) :
    PipelineResult × Store :=
  match InputValidator (accountsRegSchema p) with
  | some e => (⟨RegOutcome.failure e, false⟩, st)
  | none =>
    match accountsRegController fault st (trimPayload p) with
    | (Except.ok (a, pr), st2) => (⟨RegOutcome.success a pr, true⟩, st2)
    | (Except.error e, st2) => (⟨RegOutcome.failure e, true⟩, st2)

/-- The uniform error envelope `\x7berror, error_code, errors?\x7d`. -/
structure ErrEnvelope where
  error : String
  error_code : String
  errors : Option (List FieldError)
deriving DecidableEq, Repr

/-- What the error-normalization middleware does with one error: the
HTTP status it sets, the envelope it sends, and the error it forwards to
the next error handler, when any. -/
structure HandlerResult where
  status : Nat
  body : ErrEnvelope
  forwarded : Option JsError
deriving DecidableEq, Repr

/-- The error-handler middleware of the application.  `tr` models the
request-localized string resolver `res.__`.  Handled errors respond with
their own status and code; the message is the explicit one when nonempty
(truthy), otherwise the localized default keyed by the locale tag; the
`errors` array is attached exactly when the error carries one.
Connectivity errors respond 503 `temporarily_unavailable`.  Everything
else responds 500 `server_error` and is passed on to the next error
handler for logging. -/
def errorHandler (tr : String → String) (err : JsError) : HandlerResult :=
  match err with
  | JsError.handled s c m tag errs =>
    { status := s,
      body := { error := if m = "" then tr ("DEFAULT_ERRORS." ++ tag) else m,
                error_code := c,
                errors := errs },
      forwarded := none }
  | JsError.connection _ =>
    { status := 503,
      body := { error := tr ("DEFAULT_ERRORS.TEMPORARILY_UNAVAILABLE"),
                error_code := "temporarily_unavailable",
                errors := none },
      forwarded := none }
  | JsError.other _ =>
    { status := 500,
      body := { error := tr ("DEFAULT_ERRORS.SERVER_ERROR"),
                error_code := "server_error",
                errors := none },
      forwarded := some err }

/-- Lifecycle events of the mongoose connection for which the bootstrap
registers listeners. -/
inductive MongoEvent where
  | connected
  | disconnected
  | reconnect
  | error (err : String)
deriving DecidableEq, Repr

/-- Whether the process keeps serving after a listener runs.  A throw
out of a connection listener is an uncaught exception, which terminates
the process. -/
inductive ProcessOutcome where
  | running
  | crashed (err : String)
deriving DecidableEq, Repr

/-- The listeners registered by the connection bootstrap in
src/core/mongoose.js: each logs a structured line; the error listener
additionally rethrows the error, crashing the process. -/
def connectionListener : MongoEvent → List String × ProcessOutcome
  | MongoEvent.connected =>
    (["core.mongoose - connection - connected"], ProcessOutcome.running)
  | MongoEvent.disconnected =>
    (["core.mongoose - connection - disconnected"], ProcessOutcome.running)
  | MongoEvent.reconnect =>
    (["core.mongoose - connection - reconnect"], ProcessOutcome.running)
  | MongoEvent.error e =>
    (["core.mongoose - connection - error - " ++ e], ProcessOutcome.crashed e)

/-- The empty store. -/
def emptyStore : Store := ⟨[], [], 0, 0⟩

/-- The concrete valid payload of the testable-properties section. -/
def anaPayload : RegPayload :=
  ⟨"Ana", "Lopez", "5551234", "ana@example.com", "secret1", "secret1"⟩

/-- A store holding one existing account with the example email. -/
def anaStore : Store := ⟨[⟨0, "ana@example.com", ⟨"h0", "s0"⟩⟩], [], 1, 1⟩

/-- Payload whose raw password carries a trailing space stripped by the
trim sanitizer. -/
def c3Payload : RegPayload :=
  ⟨"Ana", "Lopez", "5551234", "ana@example.com", "secret1 ", "secret1"⟩

lemma initPasswordHash_hash_length (n : Nat) (s : String) :
    (initPasswordHash n s).hash.length = s.length + (toString n).length + 9 := by
  have h7 : ("pbkdf2[" : String).length = 7 := by decide
  have h1 : ("|" : String).length = 1 := by decide
  have h2 : ("]" : String).length = 1 := by decide
  simp [initPasswordHash, String.length_append, h7, h1, h2]
  omega

lemma initPasswordHash_hash_ne (n : Nat) (s : String) :
    (initPasswordHash n s).hash ≠ s := by
  intro h
  have hl := initPasswordHash_hash_length n s
  rw [h] at hl
  omega

/-- The confirmation-mismatch entry produced by the custom check of the
`cnf_password` field. -/
def cnfMismatchErr : FieldError :=
  ⟨"cnf_password", "VAL_ERRORS.USR_ACC_NEW_CNF_PWD_MISMATCH"⟩

lemma cnfMismatch_mem (p : RegPayload)
    (hc : (trimStr p.password != "" &&
      trimStr p.password == trimStr p.cnf_password) = false) :
    cnfMismatchErr ∈ accountsRegSchema p := by
  simp [accountsRegSchema, hc, cnfMismatchErr]

lemma accountsReg_noFault_fresh (st : Store) (p : RegPayload)
    (hv : accountsRegSchema p = [])
    (hf : st.accounts.find? (fun a => a.email == trimStr p.email) = none) :
    accountsReg noFault st p =
      (⟨RegOutcome.success
          ⟨st.nextAccountId, trimStr p.email,
            initPasswordHash st.nextSalt (trimStr p.password)⟩
          ⟨st.nextAccountId, ⟨trimStr p.first_name, trimStr p.last_name⟩,
            ⟨trimStr p.contact_phone⟩⟩,
        true⟩,
       ⟨st.accounts ++ [⟨st.nextAccountId, trimStr p.email,
          initPasswordHash st.nextSalt (trimStr p.password)⟩],
        st.profiles ++ [⟨st.nextAccountId,
          ⟨trimStr p.first_name, trimStr p.last_name⟩,
          ⟨trimStr p.contact_phone⟩⟩],
        st.nextAccountId + 1, st.nextSalt + 1⟩) := by
  unfold accountsReg InputValidator accountsRegController trimPayload noFault
  simp [hv, hf]

/-- C1: for every valid registration payload (the schema reports no
violation) whose email matches no existing account, the route creates
exactly one Account, holding that email and the hash+salt pair, and
exactly one Profile whose account reference equals the identifier of the
new Account, and returns both created records as the success payload. -/
theorem accountsReg_fresh_email_creates_one_account_one_profile
    (st : Store) (p : RegPayload)
    (hv : accountsRegSchema p = [])
    (hf : st.accounts.find? (fun a => a.email == trimStr p.email) = none) :
    ∃ a pr,
      accountsReg noFault st p =
        (⟨RegOutcome.success a pr, true⟩,
         ⟨st.accounts ++ [a], st.profiles ++ [pr],
          st.nextAccountId + 1, st.nextSalt + 1⟩) ∧
      pr.account_id = a.id ∧
      a.email = trimStr p.email ∧
      a.password =
        initPasswordHash st.nextSalt (trimStr p.password) :=
  ⟨_, _, accountsReg_noFault_fresh st p hv hf, rfl, rfl, rfl⟩

/-- Witness for C1 at the concrete example payload on the empty store. -/
theorem accountsReg_fresh_email_creates_one_account_one_profile_witness :
    accountsRegSchema anaPayload = [] ∧
    emptyStore.accounts.find?
      (fun a => a.email == trimStr anaPayload.email) = none ∧
    (∃ a pr,
      accountsReg noFault emptyStore anaPayload =
        (⟨RegOutcome.success a pr, true⟩,
         ⟨emptyStore.accounts ++ [a], emptyStore.profiles ++ [pr],
          emptyStore.nextAccountId + 1, emptyStore.nextSalt + 1⟩) ∧
      pr.account_id = a.id ∧
      a.email = trimStr anaPayload.email ∧
      a.password =
        initPasswordHash emptyStore.nextSalt (trimStr anaPayload.password)) :=
  ⟨by decide, by decide,
    accountsReg_fresh_email_creates_one_account_one_profile
      emptyStore anaPayload (by decide) (by decide)⟩

/-- C2: for every registration payload that passes the schema but whose
email already belongs to an existing account, the workflow fails with the
validation-kind error carrying a field-level entry on the email field,
and the store is unchanged: no Account or Profile is created, whatever
the database write behavior would have been. -/
theorem accountsReg_duplicate_email_no_writes
    (fault : DbFault) (st : Store) (p : RegPayload)
    (hv : accountsRegSchema p = [])
    (hf : (st.accounts.find? (fun a => a.email == trimStr p.email)).isSome
      = true) :
    accountsReg fault st p =
      (⟨RegOutcome.failure (Error.ValidationError
          [⟨"email", "VAL_ERRORS.USR_ACC_NEW_EMAIL_EXISTS"⟩]), true⟩, st) := by
  obtain ⟨a, ha⟩ := Option.isSome_iff_exists.mp hf
  unfold accountsReg InputValidator accountsRegController trimPayload
  simp [hv, ha]

/-- Witness for C2 at the concrete example payload on a store already
holding an account with that email. -/
theorem accountsReg_duplicate_email_no_writes_witness :
    accountsRegSchema anaPayload = [] ∧
    (anaStore.accounts.find?
      (fun a => a.email == trimStr anaPayload.email)).isSome = true ∧
    accountsReg noFault anaStore anaPayload =
      (⟨RegOutcome.failure (Error.ValidationError
          [⟨"email", "VAL_ERRORS.USR_ACC_NEW_EMAIL_EXISTS"⟩]), true⟩,
       anaStore) :=
  ⟨by decide, by decide,
    accountsReg_duplicate_email_no_writes noFault anaStore anaPayload
      (by decide) (by decide)⟩

/-- C3 counterexample: a payload whose raw password differs from its raw
confirmation (a trailing space) passes validation, the controller is
invoked, and the store changes, because the trim sanitizers run before
the cross-field equality check. -/
theorem accountsReg_raw_password_mismatch_reaches_controller :
    c3Payload.password ≠ c3Payload.cnf_password ∧
    accountsRegSchema c3Payload = [] ∧
    (accountsReg noFault emptyStore c3Payload).1.controllerInvoked = true ∧
    (accountsReg noFault emptyStore c3Payload).2 ≠ emptyStore :=
  ⟨by decide, by decide, by decide, by decide⟩

/-- C3 (amended): for every payload whose sanitized (trimmed) password
differs from its sanitized confirmation, validation fails before any
database access: the pipeline stops at the validator with a structured
nonempty field/message list, the controller is never invoked, and the
store is untouched. -/
theorem accountsReg_trimmed_password_mismatch_stops_pipeline
    (fault : DbFault) (st : Store) (p : RegPayload)
    (h : trimStr p.password ≠ trimStr p.cnf_password) :
    accountsRegSchema p ≠ [] ∧
    accountsReg fault st p =
      (⟨RegOutcome.failure (Error.ValidationError (accountsRegSchema p)),
        false⟩, st) := by
  have hb : (trimStr p.password == trimStr p.cnf_password) = false :=
    beq_eq_false_iff_ne.mpr h
  have hc : (trimStr p.password != "" &&
      trimStr p.password == trimStr p.cnf_password) = false := by
    simp [hb]
  have hne : accountsRegSchema p ≠ [] :=
    List.ne_nil_of_mem (cnfMismatch_mem p hc)
  refine ⟨hne, ?_⟩
  have hie : (accountsRegSchema p).isEmpty = false := by
    cases hq : accountsRegSchema p with
    | nil => exact absurd hq hne
    | cons a l => rfl
  unfold accountsReg InputValidator
  simp [hie]

/-- Witness for C3 (amended) at a concrete payload with distinct
passwords on the empty store. -/
theorem accountsReg_trimmed_password_mismatch_stops_pipeline_witness :
    trimStr (RegPayload.mk "Ana" "Lopez" "5551234" "ana@example.com"
      "secret1" "secret2").password ≠
      trimStr (RegPayload.mk "Ana" "Lopez" "5551234" "ana@example.com"
        "secret1" "secret2").cnf_password ∧
    (accountsRegSchema (RegPayload.mk "Ana" "Lopez" "5551234"
        "ana@example.com" "secret1" "secret2") ≠ [] ∧
      accountsReg noFault emptyStore
        (RegPayload.mk "Ana" "Lopez" "5551234" "ana@example.com"
          "secret1" "secret2") =
        (⟨RegOutcome.failure (Error.ValidationError (accountsRegSchema
            (RegPayload.mk "Ana" "Lopez" "5551234" "ana@example.com"
              "secret1" "secret2"))), false⟩, emptyStore)) :=
  ⟨by decide,
    accountsReg_trimmed_password_mismatch_stops_pipeline noFault emptyStore
      (RegPayload.mk "Ana" "Lopez" "5551234" "ana@example.com"
        "secret1" "secret2") (by decide)⟩

/-- C4: every error classified as a storage-connectivity error is
answered with HTTP status 503 and an envelope whose code is exactly
temporarily_unavailable and whose message is the localized default, for
every localization function. -/
theorem errorHandler_connectivity_503
    (tr : String → String) (err : JsError)
    (h : DbUtils.checkConnectionErr err = true) :
    errorHandler tr err =
      { status := 503,
        body := { error := tr ("DEFAULT_ERRORS.TEMPORARILY_UNAVAILABLE"),
                  error_code := "temporarily_unavailable",
                  errors := none },
        forwarded := none } := by
  cases err with
  | connection d => rfl
  | handled s c m tag errs => simp [DbUtils.checkConnectionErr] at h
  | other d => simp [DbUtils.checkConnectionErr] at h

/-- Witness for C4 at a concrete connection error and the identity
localizer. -/
theorem errorHandler_connectivity_503_witness :
    DbUtils.checkConnectionErr (JsError.connection ("MongoNetworkError"))
      = true ∧
    errorHandler (fun s => s) (JsError.connection ("MongoNetworkError")) =
      { status := 503,
        body := { error := "DEFAULT_ERRORS.TEMPORARILY_UNAVAILABLE",
                  error_code := "temporarily_unavailable",
                  errors := none },
        forwarded := none } :=
  ⟨by decide,
    errorHandler_connectivity_503 (fun s => s)
      (JsError.connection ("MongoNetworkError")) (by decide)⟩

/-- C5: every error that is neither handled nor a connectivity error is
answered with HTTP status 500, code server_error and the generic
localized message, and the original error is still forwarded down the
pipeline after the response. -/
theorem errorHandler_unclassified_500_forwards
    (tr : String → String) (err : JsError)
    (h1 : Error.isHandled err = false)
    (h2 : DbUtils.checkConnectionErr err = false) :
    errorHandler tr err =
      { status := 500,
        body := { error := tr ("DEFAULT_ERRORS.SERVER_ERROR"),
                  error_code := "server_error",
                  errors := none },
        forwarded := some err } := by
  cases err with
  | other d => rfl
  | handled s c m tag errs => simp [Error.isHandled] at h1
  | connection d => simp [DbUtils.checkConnectionErr] at h2

/-- Witness for C5 at a concrete unclassified error and the identity
localizer. -/
theorem errorHandler_unclassified_500_forwards_witness :
    Error.isHandled (JsError.other ("TypeError: x is not a function"))
      = false ∧
    DbUtils.checkConnectionErr
      (JsError.other ("TypeError: x is not a function")) = false ∧
    errorHandler (fun s => s)
      (JsError.other ("TypeError: x is not a function")) =
      { status := 500,
        body := { error := "DEFAULT_ERRORS.SERVER_ERROR",
                  error_code := "server_error",
                  errors := none },
        forwarded := some (JsError.other ("TypeError: x is not a function")) } :=
  ⟨by decide, by decide,
    errorHandler_unclassified_500_forwards (fun s => s)
      (JsError.other ("TypeError: x is not a function"))
      (by decide) (by decide)⟩

/-- C6: every handled error is answered with its own explicit HTTP
status and machine-readable code; the message is the explicit one when
present (nonempty) and otherwise the localized default keyed by the
locale tag; the errors array is attached exactly when the error carries
one; and nothing is forwarded. -/
theorem errorHandler_handled_envelope
    (tr : String → String) (s : Nat) (c m tag : String)
    (errs : Option (List FieldError)) :
    (errorHandler tr (JsError.handled s c m tag errs)).status = s ∧
    (errorHandler tr (JsError.handled s c m tag errs)).body.error_code
      = c ∧
    (errorHandler tr (JsError.handled s c m tag errs)).body.error =
      (if m = "" then tr ("DEFAULT_ERRORS." ++ tag) else m) ∧
    (errorHandler tr (JsError.handled s c m tag errs)).body.errors
      = errs ∧
    (errorHandler tr (JsError.handled s c m tag errs)).forwarded = none :=
  ⟨rfl, rfl, rfl, rfl, rfl⟩

/-- C7: for every registration that goes through (valid payload, fresh
email, both writes resolving), the stored credential of the created
account is exactly the hash+salt pair derived by initPasswordHash, and
the stored hash differs from the plaintext password that was hashed. -/
theorem accountsReg_stores_hash_salt_not_plaintext
    (st : Store) (p : RegPayload)
    (hv : accountsRegSchema p = [])
    (hf : st.accounts.find? (fun a => a.email == trimStr p.email) = none) :
    ∃ a pr st2,
      accountsReg noFault st p = (⟨RegOutcome.success a pr, true⟩, st2) ∧
      a.password = initPasswordHash st.nextSalt (trimStr p.password) ∧
      a.password.hash ≠ trimStr p.password :=
  ⟨_, _, _, accountsReg_noFault_fresh st p hv hf, rfl,
    initPasswordHash_hash_ne st.nextSalt (trimStr p.password)⟩

/-- Witness for C7 at the concrete example payload on the empty store. -/
theorem accountsReg_stores_hash_salt_not_plaintext_witness :
    accountsRegSchema anaPayload = [] ∧
    emptyStore.accounts.find?
      (fun a => a.email == trimStr anaPayload.email) = none ∧
    (∃ a pr st2,
      accountsReg noFault emptyStore anaPayload =
        (⟨RegOutcome.success a pr, true⟩, st2) ∧
      a.password =
        initPasswordHash emptyStore.nextSalt (trimStr anaPayload.password) ∧
      a.password.hash ≠ trimStr anaPayload.password) :=
  ⟨by decide, by decide,
    accountsReg_stores_hash_salt_not_plaintext emptyStore anaPayload
      (by decide) (by decide)⟩

/-- C8: whenever the database connection emits a connection error, the
registered listener rethrows it, so the process crashes instead of
continuing to serve. -/
theorem connection_error_crashes_process (e : String) :
    (connectionListener (MongoEvent.error e)).2 = ProcessOutcome.crashed e :=
  rfl

/-- C9: when the profile write rejects after the account write resolved,
the created account stays persisted with no profile — no rollback,
compensation or retry — and the rejection propagates unchanged to the
normalization layer. -/
theorem accountsReg_profile_failure_leaves_orphan_account
    (st : Store) (p : RegPayload) (e : JsError)
    (hv : accountsRegSchema p = [])
    (hf : st.accounts.find? (fun a => a.email == trimStr p.email) = none) :
    ∃ a,
      accountsReg ⟨none, some e⟩ st p =
        (⟨RegOutcome.failure e, true⟩,
         ⟨st.accounts ++ [a], st.profiles,
          st.nextAccountId + 1, st.nextSalt + 1⟩) := by
  refine ⟨⟨st.nextAccountId, trimStr p.email,
    initPasswordHash st.nextSalt (trimStr p.password)⟩, ?_⟩
  unfold accountsReg InputValidator accountsRegController trimPayload
  simp [hv, hf]

/-- Witness for C9 at the concrete example payload on the empty store,
with the profile write rejecting with a connectivity error. -/
theorem accountsReg_profile_failure_leaves_orphan_account_witness :
    accountsRegSchema anaPayload = [] ∧
    emptyStore.accounts.find?
      (fun a => a.email == trimStr anaPayload.email) = none ∧
    (∃ a,
      accountsReg ⟨none, some (JsError.connection ("MongoNetworkError"))⟩
          emptyStore anaPayload =
        (⟨RegOutcome.failure (JsError.connection ("MongoNetworkError")),
          true⟩,
         ⟨emptyStore.accounts ++ [a], emptyStore.profiles,
          emptyStore.nextAccountId + 1, emptyStore.nextSalt + 1⟩)) :=
  ⟨by decide, by decide,
    accountsReg_profile_failure_leaves_orphan_account emptyStore anaPayload
      (JsError.connection ("MongoNetworkError")) (by decide) (by decide)⟩

/-- C10: the custom cross-field check of `cnf_password` fails whenever
the sanitized password is empty (covering a missing or empty `password`
field), whatever `cnf_password` holds, so the confirmation-mismatch
entry is produced in addition to any missing-field entries. -/
theorem cnf_check_fails_on_empty_password
    (p : RegPayload) (h : trimStr p.password = "") :
    cnfMismatchErr ∈ accountsRegSchema p := by
  apply cnfMismatch_mem
  simp [h]

/-- Witness for C10 at the payload whose password and confirmation are
both empty strings: the mismatch entry is produced, alongside the
missing-field entries. -/
theorem cnf_check_fails_on_empty_password_witness :
    trimStr (RegPayload.mk "Ana" "Lopez" "5551234" "ana@example.com"
      "" "").password = "" ∧
    cnfMismatchErr ∈ accountsRegSchema
      (RegPayload.mk "Ana" "Lopez" "5551234" "ana@example.com" "" "") :=
  ⟨by decide,
    cnf_check_fails_on_empty_password
      (RegPayload.mk "Ana" "Lopez" "5551234" "ana@example.com" "" "")
      (by decide)⟩
